import Mathlib

/-!
# Episode world generator (`src/level_gen.cpp`)

A shallow embedding of `level_gen.cpp` and the properties of its world generator.

Modelling conventions
* `float` values are exact rationals (`ℚ`); a literal such as `0.75f` is the rational `0.75`.
  The separator geometry is also given with every float operation rounded to binary32
  (`makeChallengeSeparatorF32`).
* `Engine &ctx` is the record `Engine`: the per-world data (`ctx.data()`), one map per
  component type (`ctx.get<T>(e)`), and the state of the three collaborators the file
  calls (entity store, random stream, physics registration).
* Fixed-size C arrays (`agents`, `borders`, `dynamicEntities`, `OtherAgents::e`) are maps
  from slot index to value; the source does no bounds check and neither does the model.
* Constants that live in headers outside this file are the fields of `Consts`.
-/

namespace GPUHideSeek

/-- An entity handle. -/
abbrev Entity := Nat

structure Vector3 where
  x : ℚ
  y : ℚ
  z : ℚ
deriving DecidableEq

/-- `Vector3::zero()`. -/
def Vector3.zero : Vector3 := ⟨0, 0, 0⟩

/-- Scalar times vector, as in `1.5f * math::up`. -/
def Vector3.smul (s : ℚ) (v : Vector3) : Vector3 := ⟨s * v.x, s * v.y, s * v.z⟩

structure Diag3x3 where
  d0 : ℚ
  d1 : ℚ
  d2 : ℚ
deriving DecidableEq

/-- A rotation: either the literal `Quat { w, x, y, z }` or the call
`Quat::angleAxis(angle, axis)`, which is kept as the call with its two arguments. -/
inductive Quat where
  | lit (w x y z : ℚ)
  | angleAxis (angle : ℚ) (axis : Vector3)
deriving DecidableEq

inductive SimObject where
  | Plane
  | Wall
  | Agent
deriving DecidableEq

inductive ResponseType where
  | Dynamic
  | Static
deriving DecidableEq

/-- `ObjectID { (int32_t)sim_obj }`. -/
structure ObjectID where
  idx : SimObject
deriving DecidableEq

/-- The `Velocity` component: `{ linear, angular }`. -/
structure Velocity where
  linear : Vector3
  angular : Vector3
deriving DecidableEq

/-- The `Action` component. -/
structure Action where
  x : Int
  y : Int
  r : Int
deriving DecidableEq

/-- The camera handle: the arguments of the `setupView` call that produced it. -/
structure VizCamera where
  fov : ℚ
  zNear : ℚ
  offset : Vector3
  viewIdx : Nat
deriving DecidableEq

/-- The constants of namespace `consts` (and `math::pi`, `math::up`) read by the file.
`doorWidth` is defined in the file itself, see `Consts.doorWidth`. -/
structure Consts where
  worldWidth : ℚ
  worldLength : ℚ
  wallWidth : ℚ
  agentRadius : ℚ
  distancePerProgress : ℚ
  challengeLength : ℚ
  numAgents : Nat
  numChallenges : Nat
  numMoveBuckets : Int
  pi : ℚ
  up : Vector3

/-- Line 10: `doorWidth = consts::worldWidth / 3.f`. -/
def Consts.doorWidth (k : Consts) : ℚ := k.worldWidth / 3

/-- The engine context. -/
structure Engine where
  /-- entity store: the handle the n-th `makeEntity` call returns -/
  entityHandles : Nat → Entity
  /-- entity store: number of `makeEntity` calls so far -/
  numEntitiesMade : Nat
  /-- random stream: the n-th value `rng.rand()` returns -/
  rngDraws : Nat → ℚ
  /-- random stream: number of draws consumed so far -/
  rngPos : Nat
  /-- physics: the `registerEntity` calls so far, oldest first -/
  physRegistered : List (Entity × ObjectID)
  floorPlane : Entity
  borders : Nat → Entity
  agents : Nat → Entity
  dynamicEntities : Nat → Entity
  numDynamicEntities : Nat
  position : Entity → Vector3
  rotation : Entity → Quat
  scale : Entity → Diag3x3
  objectID : Entity → ObjectID
  velocity : Entity → Velocity
  responseType : Entity → ResponseType
  externalForce : Entity → Vector3
  externalTorque : Entity → Vector3
  leafID : Entity → Nat
  vizCamera : Entity → VizCamera
  progress : Entity → Int
  action : Entity → Action
  done : Entity → Int
  otherAgents : Entity → Nat → Entity

/-- Modelled from the spec: the entity store's create-entity call (`ctx.makeEntity<T>()`),
which is outside this file. It hands out the next handle of `entityHandles`. -/
def makeEntity (ctx : Engine) : Entity × Engine :=
  (ctx.entityHandles ctx.numEntitiesMade,
    { ctx with numEntitiesMade := ctx.numEntitiesMade + 1 })

/-- Modelled from the spec: the random stream's `rand()`, a value in `[0,1)`; it is outside
this file. It returns the next value of `rngDraws` and advances the stream by one. -/
def rngRand (ctx : Engine) : ℚ × Engine :=
  (ctx.rngDraws ctx.rngPos, { ctx with rngPos := ctx.rngPos + 1 })

/-- The context once `n` further draws have been consumed. -/
def atDraw (ctx : Engine) (n : Nat) : Engine := { ctx with rngPos := ctx.rngPos + n }

/-- Modelled from the spec: `RigidBodyPhysicsSystem::registerEntity(ctx, e, obj_id)`, which
is outside this file. The call is appended to the registration log and the leaf handle
returned is its position in the log. -/
def registerEntity (ctx : Engine) (e : Entity) (obj_id : ObjectID) : Nat × Engine :=
  (ctx.physRegistered.length,
    { ctx with physRegistered := ctx.physRegistered ++ [(e, obj_id)] })

/-- Modelled from the spec: `viz::VizRenderingSystem::setupView`, which is outside this
file. The handle records the arguments of the call. -/
def setupView (_ctx : Engine) (fov zNear : ℚ) (offset : Vector3) (viewIdx : Nat) :
    VizCamera :=
  ⟨fov, zNear, offset, viewIdx⟩

/-- A counted loop `for (CountT i = lo; i < hi; i++) s = body(i, s);`. -/
def forRange {σ : Type} (lo hi : Nat) (body : Nat → σ → σ) (s : σ) : σ :=
  (List.range' lo (hi - lo)).foldl (fun acc i => body i acc) s

/-- Lines 13-19. -/
def makeDynEntity (ctx : Engine) : Entity × Engine :=
  let r := makeEntity ctx
  (r.1,
    { r.2 with
      dynamicEntities := Function.update r.2.dynamicEntities r.2.numDynamicEntities r.1
      numDynamicEntities := r.2.numDynamicEntities + 1 })

/-- Lines 21-43. -/
def setupPhysicsEntity (ctx : Engine) (e : Entity) (pos : Vector3) (rot : Quat)
    (sim_obj : SimObject) (response_type : ResponseType) (scale : Diag3x3) : Engine :=
  { ctx with
    position := Function.update ctx.position e pos
    rotation := Function.update ctx.rotation e rot
    scale := Function.update ctx.scale e scale
    objectID := Function.update ctx.objectID e ⟨sim_obj⟩
    velocity := Function.update ctx.velocity e ⟨Vector3.zero, Vector3.zero⟩
    responseType := Function.update ctx.responseType e response_type
    externalForce := Function.update ctx.externalForce e Vector3.zero
    externalTorque := Function.update ctx.externalTorque e Vector3.zero }

/-- Lines 45-53. -/
def registerPhysicsEntity (ctx : Engine) (e : Entity) (sim_obj : SimObject) : Engine :=
  let r := registerEntity ctx e ⟨sim_obj⟩
  { r.2 with leafID := Function.update r.2.leafID e r.1 }

/-- Lines 148-154: body of the loop that creates the agents. -/
def createAgent (i : Nat) (ctx : Engine) : Engine :=
  let r := makeEntity ctx
  let agent := r.1
  let ctx := { r.2 with agents := Function.update r.2.agents i agent }
  { ctx with
    scale := Function.update ctx.scale agent ⟨1, 1, 1⟩
    objectID := Function.update ctx.objectID agent ⟨SimObject.Agent⟩
    responseType := Function.update ctx.responseType agent ResponseType.Dynamic }

/-- Lines 163-170: body of the inner loop; the state is the context and `out_idx`. -/
def fillOtherAgent (i : Nat) (cur_agent : Entity) (j : Nat) (s : Engine × Nat) :
    Engine × Nat :=
  if i = j then s
  else
    let other_agent := s.1.agents j
    ({ s.1 with
        otherAgents := Function.update s.1.otherAgents cur_agent
          (Function.update (s.1.otherAgents cur_agent) s.2 other_agent) },
      s.2 + 1)

/-- Lines 158-171: body of the outer loop that fills `OtherAgents`. -/
def populateOtherAgents (k : Consts) (i : Nat) (ctx : Engine) : Engine :=
  let cur_agent := ctx.agents i
  (forRange 0 k.numAgents (fillOtherAgent i cur_agent) (ctx, 0)).1

/-- Lines 76-143: the floor plane and the three border walls. -/
def createStaticEntities (k : Consts) (ctx : Engine) : Engine :=
  let r := makeEntity ctx
  let ctx := { r.2 with floorPlane := r.1 }
  let ctx := setupPhysicsEntity ctx ctx.floorPlane ⟨0, 0, 0⟩ (Quat.lit 1 0 0 0)
    SimObject.Plane ResponseType.Static ⟨1, 1, 1⟩
  let r := makeEntity ctx
  let ctx := { r.2 with borders := Function.update r.2.borders 0 r.1 }
  let ctx := setupPhysicsEntity ctx (ctx.borders 0)
    ⟨0, -k.wallWidth / 2, 0⟩ (Quat.lit 1 0 0 0) SimObject.Wall ResponseType.Static
    ⟨k.worldWidth + k.wallWidth * 2, k.wallWidth, 2⟩
  let r := makeEntity ctx
  let ctx := { r.2 with borders := Function.update r.2.borders 1 r.1 }
  let ctx := setupPhysicsEntity ctx (ctx.borders 1)
    ⟨k.worldWidth / 2 + k.wallWidth / 2, k.worldLength / 2, 0⟩ (Quat.lit 1 0 0 0)
    SimObject.Wall ResponseType.Static ⟨k.wallWidth, k.worldLength, 2⟩
  let r := makeEntity ctx
  let ctx := { r.2 with borders := Function.update r.2.borders 2 r.1 }
  setupPhysicsEntity ctx (ctx.borders 2)
    ⟨-k.worldWidth / 2 - k.wallWidth / 2, k.worldLength / 2, 0⟩ (Quat.lit 1 0 0 0)
    SimObject.Wall ResponseType.Static ⟨k.wallWidth, k.worldLength, 2⟩

/-- Lines 74-172. -/
def createPersistentEntities (k : Consts) (ctx : Engine) : Engine :=
  let ctx := createStaticEntities k ctx
  let ctx := forRange 0 k.numAgents createAgent ctx
  forRange 0 k.numAgents (populateOtherAgents k) ctx

/-- Lines 174-177. -/
def randInRangeCentered (ctx : Engine) (range : ℚ) : ℚ × Engine :=
  let r := rngRand ctx
  (r.1 * range - range / 2, r.2)

/-- Lines 179-182. -/
def randBetween (ctx : Engine) (min max : ℚ) : ℚ × Engine :=
  let r := rngRand ctx
  (r.1 * (max - min) + min, r.2)

/-- Lines 202-208: the initialiser of `pos` (x is drawn first, then y). -/
def agentStartPos (k : Consts) (ctx : Engine) : Vector3 × Engine :=
  let rx := randInRangeCentered ctx (k.worldWidth / 2 - 2.5 * k.agentRadius)
  let ry := randBetween rx.2 0 (k.distancePerProgress / 2)
  (⟨rx.1, ry.1 + 1.1 * k.agentRadius, 0⟩, ry.2)

/-- Lines 210-214: the group bias on `pos.x`. -/
def biasStartPos (k : Consts) (i : Nat) (pos : Vector3) : Vector3 :=
  if i % 2 = 0 then { pos with x := pos.x + k.worldWidth / 4 }
  else { pos with x := pos.x - k.worldWidth / 4 }

/-- Lines 193-236: body of the loop over the agents. -/
def resetAgent (k : Consts) (i : Nat) (ctx : Engine) : Engine :=
  let agent_entity := ctx.agents i
  let ctx := registerPhysicsEntity ctx agent_entity SimObject.Agent
  let ctx := { ctx with
    vizCamera := Function.update ctx.vizCamera agent_entity
      (setupView ctx 90 0.001 (Vector3.smul 1.5 k.up) i) }
  let p := agentStartPos k ctx
  let pos := biasStartPos k i p.1
  let ctx := p.2
  let ctx := { ctx with position := Function.update ctx.position agent_entity pos }
  let a := randInRangeCentered ctx (k.pi / 4)
  let ctx := a.2
  let ctx := { ctx with
    rotation := Function.update ctx.rotation agent_entity (Quat.angleAxis a.1 k.up) }
  let ctx := { ctx with progress := Function.update ctx.progress agent_entity 0 }
  let ctx := { ctx with
    velocity := Function.update ctx.velocity agent_entity ⟨Vector3.zero, Vector3.zero⟩ }
  let ctx := { ctx with
    externalForce := Function.update ctx.externalForce agent_entity Vector3.zero }
  let ctx := { ctx with
    externalTorque := Function.update ctx.externalTorque agent_entity Vector3.zero }
  let ctx := { ctx with
    action := Function.update ctx.action agent_entity
      ⟨Int.tdiv k.numMoveBuckets 2, Int.tdiv k.numMoveBuckets 2,
        Int.tdiv k.numMoveBuckets 2⟩ }
  { ctx with done := Function.update ctx.done agent_entity 0 }

/-- Lines 184-237. -/
def resetPersistentEntities (k : Consts) (ctx : Engine) : Engine :=
  let ctx := registerPhysicsEntity ctx ctx.floorPlane SimObject.Plane
  let ctx := forRange 0 3
    (fun i c => registerPhysicsEntity c (c.borders i) SimObject.Wall) ctx
  forRange 0 k.numAgents (resetAgent k) ctx

/-- The local variables of one `makeChallengeSeparator` call. -/
structure SeparatorLocals where
  y_pos : ℚ
  door_center : ℚ
  left_len : ℚ
  right_len : ℚ
  left_wall : Entity
  right_wall : Entity

/-- Lines 240-291, returning the local variables next to the final context. -/
def makeChallengeSeparatorLocals (k : Consts) (ctx : Engine) (challenge_idx : Nat) :
    SeparatorLocals × Engine :=
  let y_pos := k.challengeLength * ((challenge_idx : ℚ) + 1) - k.wallWidth / 2
  let d := randBetween ctx (0.75 * k.doorWidth) (k.worldWidth - 0.75 * k.doorWidth)
  let door_center := d.1
  let ctx := d.2
  let left_len := door_center - 0.5 * k.doorWidth
  let m := makeDynEntity ctx
  let left_wall := m.1
  let ctx := setupPhysicsEntity m.2 left_wall
    ⟨(-k.worldWidth + left_len) / 2, y_pos, 0⟩ (Quat.lit 1 0 0 0)
    SimObject.Wall ResponseType.Static ⟨left_len, k.wallWidth, 1.75⟩
  let ctx := registerPhysicsEntity ctx left_wall SimObject.Wall
  let right_len := k.worldWidth - door_center - 0.5 * k.doorWidth
  let m := makeDynEntity ctx
  let right_wall := m.1
  let ctx := setupPhysicsEntity m.2 right_wall
    ⟨(k.worldWidth - right_len) / 2, y_pos, 0⟩ (Quat.lit 1 0 0 0)
    SimObject.Wall ResponseType.Static ⟨right_len, k.wallWidth, 1.75⟩
  let ctx := registerPhysicsEntity ctx right_wall SimObject.Wall
  (⟨y_pos, door_center, left_len, right_len, left_wall, right_wall⟩, ctx)

/-- Lines 240-291 (the returned `{ 0, 0 }` is dropped: no caller reads it). -/
def makeChallengeSeparator (k : Consts) (ctx : Engine) (challenge_idx : Nat) : Engine :=
  (makeChallengeSeparatorLocals k ctx challenge_idx).2

/-- Lines 293-301. -/
def generateChallenges (k : Consts) (ctx : Engine) : Engine :=
  let ctx := makeChallengeSeparator k ctx 0
  forRange 1 k.numChallenges (fun i c => makeChallengeSeparator k c i) ctx

/-- Lines 304-308. -/
def generateWorld (k : Consts) (ctx : Engine) : Engine :=
  generateChallenges k (resetPersistentEntities k ctx)

/-! ## Sample inputs -/

/-- A two-agent, one-challenge configuration (world width 20). -/
def sampleConsts : Consts where
  worldWidth := 20
  worldLength := 40
  wallWidth := 1
  agentRadius := 1
  distancePerProgress := 4
  challengeLength := 10
  numAgents := 2
  numChallenges := 1
  numMoveBuckets := 5
  pi := 355 / 113
  up := ⟨0, 0, 1⟩

/-- A freshly constructed world: nothing created, every draw is `1/2`. -/
def sampleEngine : Engine where
  entityHandles := fun n => n
  numEntitiesMade := 0
  rngDraws := fun _ => 1 / 2
  rngPos := 0
  physRegistered := []
  floorPlane := 0
  borders := fun _ => 0
  agents := fun _ => 0
  dynamicEntities := fun _ => 0
  numDynamicEntities := 0
  position := fun _ => Vector3.zero
  rotation := fun _ => Quat.lit 1 0 0 0
  scale := fun _ => ⟨1, 1, 1⟩
  objectID := fun _ => ⟨SimObject.Plane⟩
  velocity := fun _ => ⟨Vector3.zero, Vector3.zero⟩
  responseType := fun _ => ResponseType.Static
  externalForce := fun _ => Vector3.zero
  externalTorque := fun _ => Vector3.zero
  leafID := fun _ => 0
  vizCamera := fun _ => ⟨0, 0, Vector3.zero, 0⟩
  progress := fun _ => 0
  action := fun _ => ⟨0, 0, 0⟩
  done := fun _ => 0
  otherAgents := fun _ _ => 0

/-- The sample configuration with `numChallenges = 0`. -/
def openArenaConsts : Consts := { sampleConsts with numChallenges := 0 }

/-! ## The separator in binary32 -/

/-- The quotient `n / d` rounded to the nearest integer, ties to even. -/
def roundHalfEven (n d : Nat) : Nat :=
  if 2 * (n % d) < d then n / d
  else if d < 2 * (n % d) then n / d + 1
  else if (n / d) % 2 = 0 then n / d else n / d + 1

/-- Halve `n` until it is below 2, counting the steps (at most `fuel` of them). -/
def log2Fuel : Nat → Nat → Nat
  | 0, _ => 0
  | fuel + 1, n => if 2 ≤ n then log2Fuel fuel (n / 2) + 1 else 0

/-- The integer part of the base-2 logarithm of a positive `n`. -/
def natLog2 (n : Nat) : Nat := log2Fuel n n

/-- The integer part of the base-2 logarithm of `n / d`, for positive `n` and `d`. -/
def floorLog2 (n d : Nat) : Int :=
  if natLog2 d ≤ natLog2 n then
    if d * 2 ^ (natLog2 n - natLog2 d) ≤ n then ((natLog2 n - natLog2 d : Nat) : Int)
    else ((natLog2 n - natLog2 d : Nat) : Int) - 1
  else
    if d ≤ n * 2 ^ (natLog2 d - natLog2 n) then -((natLog2 d - natLog2 n : Nat) : Int)
    else -((natLog2 d - natLog2 n : Nat) : Int) - 1

/-- The value a `float` holds after an operation whose exact result is `x`: the nearest
`m * 2^e` with a 24-bit `m` and `e >= -149`, ties to the even `m`. Results beyond the
largest finite `float` (infinity in the code) are not clamped. -/
def f32 (x : ℚ) : ℚ :=
  if x = 0 then 0
  else
    let n := x.num.natAbs
    let d := x.den
    let e : Int := max (floorLog2 n d - 23) (-149)
    let m : Nat :=
      if 0 ≤ e then roundHalfEven n (d * 2 ^ e.toNat)
      else roundHalfEven (n * 2 ^ (-e).toNat) d
    let v : ℚ := (m : ℚ) * (2 : ℚ) ^ e
    if x < 0 then -v else v

/-- The fields `resetPersistentEntities` never writes. -/
def SameStore (a b : Engine) : Prop :=
  b.numDynamicEntities = a.numDynamicEntities ∧ b.dynamicEntities = a.dynamicEntities ∧
  b.numEntitiesMade = a.numEntitiesMade ∧ b.entityHandles = a.entityHandles ∧
  b.agents = a.agents ∧ b.otherAgents = a.otherAgents ∧ b.rngDraws = a.rngDraws ∧
  b.scale = a.scale

/-- The transient state of entity `e` is the one the reset writes. -/
def Cleared (k : Consts) (t : Engine) (e : Entity) : Prop :=
  t.progress e = 0 ∧ t.velocity e = ⟨Vector3.zero, Vector3.zero⟩ ∧
  t.externalForce e = Vector3.zero ∧ t.externalTorque e = Vector3.zero ∧
  t.done e = 0 ∧
  t.action e = ⟨Int.tdiv k.numMoveBuckets 2, Int.tdiv k.numMoveBuckets 2,
    Int.tdiv k.numMoveBuckets 2⟩

/-- The slot-to-agent map of agent `i`: ascending index, skipping `i`. -/
def skipIdx (i s : Nat) : Nat := if s < i then s else s + 1

theorem forRange_of_le {σ : Type} (lo hi : Nat) (body : Nat → σ → σ) (s : σ)
    (h : hi ≤ lo) : forRange lo hi body s = s := by
  simp [forRange, Nat.sub_eq_zero_of_le h]

theorem forRange_succ {σ : Type} (lo hi : Nat) (body : Nat → σ → σ) (s : σ)
    (h : lo ≤ hi) : forRange lo (hi + 1) body s = body hi (forRange lo hi body s) := by
  have e : hi + 1 - lo = (hi - lo) + 1 := by omega
  have e2 : lo + (hi - lo) = hi := by omega
  simp [forRange, e, List.range'_concat, List.foldl_append, e2]

/-- Loop invariant rule for `forRange`. -/
theorem forRange_inv {σ : Type} (P : Nat → σ → Prop) (lo hi : Nat) (body : Nat → σ → σ)
    (s : σ) (hle : lo ≤ hi) (h0 : P lo s)
    (hstep : ∀ i t, lo ≤ i → i < hi → P i t → P (i + 1) (body i t)) :
    P hi (forRange lo hi body s) := by
  induction hi, hle using Nat.le_induction with
  | base => simpa [forRange_of_le] using h0
  | succ n hn ih =>
    rw [forRange_succ lo n body s hn]
    exact hstep n _ hn (Nat.lt_succ_self n)
      (ih (fun i t h1 h2 hp => hstep i t h1 (Nat.lt_succ_of_lt h2) hp))

/-- A property kept by every iteration is kept by the loop. -/
theorem forRange_keeps {σ : Type} (Q : σ → Prop) (lo hi : Nat) (body : Nat → σ → σ)
    (s : σ) (h0 : Q s) (hstep : ∀ i t, lo ≤ i → i < hi → Q t → Q (body i t)) :
    Q (forRange lo hi body s) := by
  rcases Nat.le_total lo hi with h | h
  · exact forRange_inv (fun _ t => Q t) lo hi body s h h0 hstep
  · rw [forRange_of_le lo hi body s h]; exact h0

/-! ## Random scalars -/

theorem randInRangeCentered_fst (ctx : Engine) (range : ℚ) :
    (randInRangeCentered ctx range).1 = ctx.rngDraws ctx.rngPos * range - range / 2 := rfl

theorem randBetween_fst (ctx : Engine) (lo hi : ℚ) :
    (randBetween ctx lo hi).1 = ctx.rngDraws ctx.rngPos * (hi - lo) + lo := rfl

/-- A centred draw lies in `[-range/2, range/2)` when `range` is not negative. -/
theorem centered_abs_le (u range : ℚ) (h0 : 0 ≤ u) (h1 : u < 1) (hr : 0 ≤ range) :
    |u * range - range / 2| ≤ range / 2 := by
  rw [abs_le]
  constructor
  · nlinarith [mul_nonneg h0 hr]
  · nlinarith [mul_nonneg (sub_nonneg.mpr h1.le) hr]

/-! ## Agent start positions -/

/-- C6: in `resetPersistentEntities`, for every context whose next two draws lie in `[0,1)`,
with `agentRadius >= 0`, `worldWidth/2 - 2.5*agentRadius >= 0` and
`distancePerProgress >= 0`, the start position before the group bias has
`|x| <= worldWidth/2 - 2.5*agentRadius`,
`1.1*agentRadius <= y <= distancePerProgress/2 + 1.1*agentRadius` and `z = 0`. -/
theorem agentStartPos_bounds (k : Consts) (ctx : Engine)
    (_hr : 0 ≤ k.agentRadius)
    (hw : 0 ≤ k.worldWidth / 2 - 2.5 * k.agentRadius)
    (hd : 0 ≤ k.distancePerProgress)
    (hx0 : 0 ≤ ctx.rngDraws ctx.rngPos) (hx1 : ctx.rngDraws ctx.rngPos < 1)
    (hy0 : 0 ≤ ctx.rngDraws (ctx.rngPos + 1)) (hy1 : ctx.rngDraws (ctx.rngPos + 1) < 1) :
    |(agentStartPos k ctx).1.x| ≤ k.worldWidth / 2 - 2.5 * k.agentRadius ∧
    1.1 * k.agentRadius ≤ (agentStartPos k ctx).1.y ∧
    (agentStartPos k ctx).1.y ≤ k.distancePerProgress / 2 + 1.1 * k.agentRadius ∧
    (agentStartPos k ctx).1.z = 0 := by
  have hxv : (agentStartPos k ctx).1.x =
      ctx.rngDraws ctx.rngPos * (k.worldWidth / 2 - 2.5 * k.agentRadius)
        - (k.worldWidth / 2 - 2.5 * k.agentRadius) / 2 := rfl
  have hyv : (agentStartPos k ctx).1.y =
      ctx.rngDraws (ctx.rngPos + 1) * (k.distancePerProgress / 2 - 0) + 0
        + 1.1 * k.agentRadius := rfl
  refine ⟨?_, ?_, ?_, rfl⟩
  · rw [hxv]
    have := centered_abs_le _ _ hx0 hx1 hw
    linarith
  · rw [hyv]
    nlinarith [mul_nonneg hy0 hd]
  · rw [hyv]
    nlinarith [mul_nonneg (sub_nonneg.mpr hy1.le) hd]

theorem agentStartPos_bounds_witness :
    |(agentStartPos sampleConsts sampleEngine).1.x| ≤
        sampleConsts.worldWidth / 2 - 2.5 * sampleConsts.agentRadius ∧
    1.1 * sampleConsts.agentRadius ≤ (agentStartPos sampleConsts sampleEngine).1.y ∧
    (agentStartPos sampleConsts sampleEngine).1.y ≤
        sampleConsts.distancePerProgress / 2 + 1.1 * sampleConsts.agentRadius ∧
    (agentStartPos sampleConsts sampleEngine).1.z = 0 :=
  agentStartPos_bounds sampleConsts sampleEngine
    (by norm_num [sampleConsts]) (by norm_num [sampleConsts]) (by norm_num [sampleConsts])
    (by norm_num [sampleEngine]) (by norm_num [sampleEngine])
    (by norm_num [sampleEngine]) (by norm_num [sampleEngine])

/-! ## One separator -/

theorem separatorLocals_door_center (k : Consts) (ctx : Engine) (challenge_idx : Nat) :
    (makeChallengeSeparatorLocals k ctx challenge_idx).1.door_center =
      ctx.rngDraws ctx.rngPos *
          (k.worldWidth - 0.75 * k.doorWidth - 0.75 * k.doorWidth) + 0.75 * k.doorWidth :=
  rfl

theorem separatorLocals_left_len (k : Consts) (ctx : Engine) (challenge_idx : Nat) :
    (makeChallengeSeparatorLocals k ctx challenge_idx).1.left_len =
      (makeChallengeSeparatorLocals k ctx challenge_idx).1.door_center
        - 0.5 * k.doorWidth := rfl

theorem separatorLocals_right_len (k : Consts) (ctx : Engine) (challenge_idx : Nat) :
    (makeChallengeSeparatorLocals k ctx challenge_idx).1.right_len =
      k.worldWidth - (makeChallengeSeparatorLocals k ctx challenge_idx).1.door_center
        - 0.5 * k.doorWidth := rfl

/-- The door centre lies in `[0.75*doorWidth, worldWidth - 0.75*doorWidth)`. -/
theorem separatorLocals_door_center_range (k : Consts) (ctx : Engine) (challenge_idx : Nat)
    (hW : 0 < k.worldWidth)
    (hu0 : 0 ≤ ctx.rngDraws ctx.rngPos) (hu1 : ctx.rngDraws ctx.rngPos < 1) :
    0.75 * k.doorWidth ≤ (makeChallengeSeparatorLocals k ctx challenge_idx).1.door_center ∧
    (makeChallengeSeparatorLocals k ctx challenge_idx).1.door_center
      < k.worldWidth - 0.75 * k.doorWidth := by
  rw [separatorLocals_door_center]
  simp only [Consts.doorWidth]
  constructor
  · nlinarith [mul_nonneg hu0 hW.le]
  · nlinarith [mul_pos (sub_pos.mpr hu1) hW]

/-- Both wall lengths are at least a quarter of the door width. -/
theorem separatorLocals_len_ge (k : Consts) (ctx : Engine) (challenge_idx : Nat)
    (hW : 0 < k.worldWidth)
    (hu0 : 0 ≤ ctx.rngDraws ctx.rngPos) (hu1 : ctx.rngDraws ctx.rngPos < 1) :
    0.25 * k.doorWidth ≤ (makeChallengeSeparatorLocals k ctx challenge_idx).1.left_len ∧
    0.25 * k.doorWidth ≤ (makeChallengeSeparatorLocals k ctx challenge_idx).1.right_len := by
  have h := separatorLocals_door_center_range k ctx challenge_idx hW hu0 hu1
  rw [separatorLocals_left_len, separatorLocals_right_len]
  refine ⟨?_, ?_⟩
  · linarith [h.1]
  · linarith [h.2]

/-- C1: in `makeChallengeSeparator`, for every challenge index, every `worldWidth > 0` and
every draw in `[0,1)`, the two segment lengths satisfy
`left_len + doorWidth + right_len = worldWidth` exactly, and both are at least
`0.25*doorWidth`. -/
theorem makeChallengeSeparator_lengths (k : Consts) (ctx : Engine) (challenge_idx : Nat)
    (hW : 0 < k.worldWidth)
    (hu0 : 0 ≤ ctx.rngDraws ctx.rngPos) (hu1 : ctx.rngDraws ctx.rngPos < 1) :
    (makeChallengeSeparatorLocals k ctx challenge_idx).1.left_len + k.doorWidth
        + (makeChallengeSeparatorLocals k ctx challenge_idx).1.right_len = k.worldWidth ∧
    0.25 * k.doorWidth ≤ (makeChallengeSeparatorLocals k ctx challenge_idx).1.left_len ∧
    0.25 * k.doorWidth ≤ (makeChallengeSeparatorLocals k ctx challenge_idx).1.right_len := by
  obtain ⟨hl, hr⟩ := separatorLocals_len_ge k ctx challenge_idx hW hu0 hu1
  refine ⟨?_, hl, hr⟩
  rw [separatorLocals_left_len, separatorLocals_right_len]
  ring

theorem makeChallengeSeparator_lengths_witness :
    (makeChallengeSeparatorLocals sampleConsts sampleEngine 0).1.left_len
        + sampleConsts.doorWidth
        + (makeChallengeSeparatorLocals sampleConsts sampleEngine 0).1.right_len
      = sampleConsts.worldWidth ∧
    0.25 * sampleConsts.doorWidth
      ≤ (makeChallengeSeparatorLocals sampleConsts sampleEngine 0).1.left_len ∧
    0.25 * sampleConsts.doorWidth
      ≤ (makeChallengeSeparatorLocals sampleConsts sampleEngine 0).1.right_len :=
  makeChallengeSeparator_lengths sampleConsts sampleEngine 0
    (by norm_num [sampleConsts]) (by norm_num [sampleEngine]) (by norm_num [sampleEngine])

/-- The first effects of one separator: counters, slots of `dynamicEntities`, handles. -/
theorem makeChallengeSeparator_slots (k : Consts) (ctx : Engine) (challenge_idx : Nat) :
    (makeChallengeSeparatorLocals k ctx challenge_idx).1.left_wall
        = ctx.entityHandles ctx.numEntitiesMade ∧
    (makeChallengeSeparatorLocals k ctx challenge_idx).1.right_wall
        = ctx.entityHandles (ctx.numEntitiesMade + 1) ∧
    (makeChallengeSeparator k ctx challenge_idx).dynamicEntities ctx.numDynamicEntities
        = ctx.entityHandles ctx.numEntitiesMade ∧
    (makeChallengeSeparator k ctx challenge_idx).dynamicEntities
        (ctx.numDynamicEntities + 1) = ctx.entityHandles (ctx.numEntitiesMade + 1) ∧
    (makeChallengeSeparator k ctx challenge_idx).numDynamicEntities
        = ctx.numDynamicEntities + 2 ∧
    (makeChallengeSeparator k ctx challenge_idx).numEntitiesMade
        = ctx.numEntitiesMade + 2 ∧
    (makeChallengeSeparator k ctx challenge_idx).rngPos = ctx.rngPos + 1 ∧
    (makeChallengeSeparator k ctx challenge_idx).entityHandles = ctx.entityHandles ∧
    (makeChallengeSeparator k ctx challenge_idx).rngDraws = ctx.rngDraws ∧
    (∀ s, s ≠ ctx.numDynamicEntities → s ≠ ctx.numDynamicEntities + 1 →
      (makeChallengeSeparator k ctx challenge_idx).dynamicEntities s
        = ctx.dynamicEntities s) := by
  refine ⟨rfl, rfl, ?_, ?_, rfl, rfl, rfl, rfl, rfl, ?_⟩
  · simp [makeChallengeSeparator, makeChallengeSeparatorLocals, registerPhysicsEntity,
      registerEntity, setupPhysicsEntity, makeDynEntity, makeEntity, randBetween, rngRand]
  · simp [makeChallengeSeparator, makeChallengeSeparatorLocals, registerPhysicsEntity,
      registerEntity, setupPhysicsEntity, makeDynEntity, makeEntity, randBetween, rngRand]
  · intro s h1 h2
    simp [makeChallengeSeparator, makeChallengeSeparatorLocals, registerPhysicsEntity,
      registerEntity, setupPhysicsEntity, makeDynEntity, makeEntity, randBetween, rngRand,
      Function.update_noteq h1, Function.update_noteq h2]

/-- Known binary32 values: `0.1f`, `20.f / 3.f`, a tie above `2^24`, and the smallest
subnormal range. -/
theorem f32_samples :
    f32 (1 / 10) = 13421773 / 134217728 ∧ f32 (20 / 3) = 13981013 / 2097152 ∧
    f32 16777217 = 16777216 ∧ f32 16777219 = 16777220 ∧
    f32 (-(1 / 10)) = -(13421773 / 134217728) ∧ f32 (3 / 2 ^ 150) = 2 / 2 ^ 149 ∧
    f32 (1 / 2) = 1 / 2 ∧ f32 20 = 20 := by
  decide!

theorem resetAgent_sameStore (k : Consts) (i : Nat) (a t : Engine) (h : SameStore a t) :
    SameStore a (resetAgent k i t) := h

theorem resetPersistentEntities_sameStore (k : Consts) (ctx : Engine) :
    SameStore ctx (resetPersistentEntities k ctx) := by
  unfold resetPersistentEntities
  apply forRange_keeps (SameStore ctx)
  · apply forRange_keeps (SameStore ctx)
    · exact ⟨rfl, rfl, rfl, rfl, rfl, rfl, rfl, rfl⟩
    · intro i t _ _ h
      exact h
  · intro i t _ _ h
    exact resetAgent_sameStore k i ctx t h

theorem makeChallengeSeparator_sameRoster (k : Consts) (t : Engine) (idx : Nat) :
    (makeChallengeSeparator k t idx).agents = t.agents ∧
    (makeChallengeSeparator k t idx).otherAgents = t.otherAgents := ⟨rfl, rfl⟩

/-- `generateWorld` writes neither the agent array nor any `OtherAgents` list. -/
theorem generateWorld_sameRoster (k : Consts) (ctx : Engine) :
    (generateWorld k ctx).agents = ctx.agents ∧
    (generateWorld k ctx).otherAgents = ctx.otherAgents := by
  obtain ⟨_, _, _, _, ha, ho, _⟩ := resetPersistentEntities_sameStore k ctx
  unfold generateWorld generateChallenges
  apply forRange_keeps
    (fun t : Engine => t.agents = ctx.agents ∧ t.otherAgents = ctx.otherAgents)
  · obtain ⟨h1, h2⟩ := makeChallengeSeparator_sameRoster k (resetPersistentEntities k ctx) 0
    exact ⟨h1.trans ha, h2.trans ho⟩
  · intro i t _ _ h
    obtain ⟨h1, h2⟩ := makeChallengeSeparator_sameRoster k t i
    exact ⟨h1.trans h.1, h2.trans h.2⟩

/-! ## Counting the separators -/

theorem generateChallenges_numDynamicEntities (k : Consts) (ctx : Engine) :
    (generateChallenges k ctx).numDynamicEntities
      = ctx.numDynamicEntities + 2 * max 1 k.numChallenges := by
  unfold generateChallenges
  rcases Nat.lt_or_ge k.numChallenges 1 with h | h
  · rw [forRange_of_le 1 k.numChallenges _ _ (by omega)]
    rw [(makeChallengeSeparator_slots k ctx 0).2.2.2.2.1]
    have : max 1 k.numChallenges = 1 := by omega
    rw [this]
  · have key := forRange_inv
      (fun i (t : Engine) => t.numDynamicEntities = ctx.numDynamicEntities + 2 * i)
      1 k.numChallenges (fun i c => makeChallengeSeparator k c i)
      (makeChallengeSeparator k ctx 0) h
      (by
        show (makeChallengeSeparator k ctx 0).numDynamicEntities = _
        rw [(makeChallengeSeparator_slots k ctx 0).2.2.2.2.1])
      (by
        intro i t _ _ ht
        show (makeChallengeSeparator k t i).numDynamicEntities = _
        rw [(makeChallengeSeparator_slots k t i).2.2.2.2.1, ht]
        ring)
    have : max 1 k.numChallenges = k.numChallenges := by omega
    rw [this]
    exact key

theorem generateWorld_numDynamicEntities (k : Consts) (ctx : Engine) :
    (generateWorld k ctx).numDynamicEntities
      = ctx.numDynamicEntities + 2 * max 1 k.numChallenges := by
  unfold generateWorld
  rw [generateChallenges_numDynamicEntities, (resetPersistentEntities_sameStore k ctx).1]

theorem makeChallengeSeparator_physRegistered (k : Consts) (ctx : Engine)
    (challenge_idx : Nat) :
    (makeChallengeSeparator k ctx challenge_idx).physRegistered
      = ctx.physRegistered ++
        [(ctx.entityHandles ctx.numEntitiesMade, ⟨SimObject.Wall⟩),
         (ctx.entityHandles (ctx.numEntitiesMade + 1), ⟨SimObject.Wall⟩)] := by
  simp [makeChallengeSeparator, makeChallengeSeparatorLocals, registerPhysicsEntity,
    registerEntity, setupPhysicsEntity, makeDynEntity, makeEntity, randBetween, rngRand]

/-- C2 does not hold: with `numChallenges = 0`, `generateWorld` on the freshly built world
(no dynamic entity yet) leaves two dynamic entities, the walls of separator 0, both
registered with physics. -/
theorem generateWorld_zero_challenges_counterexample :
    openArenaConsts.numChallenges = 0 ∧
    (createPersistentEntities openArenaConsts sampleEngine).numDynamicEntities = 0 ∧
    (generateWorld openArenaConsts
      (createPersistentEntities openArenaConsts sampleEngine)).numDynamicEntities = 2 ∧
    (generateWorld openArenaConsts
      (createPersistentEntities openArenaConsts sampleEngine)).physRegistered
      = [(0, ⟨SimObject.Plane⟩), (1, ⟨SimObject.Wall⟩), (2, ⟨SimObject.Wall⟩),
         (3, ⟨SimObject.Wall⟩), (4, ⟨SimObject.Agent⟩), (5, ⟨SimObject.Agent⟩),
         (6, ⟨SimObject.Wall⟩), (7, ⟨SimObject.Wall⟩)] := by
  refine ⟨rfl, rfl, rfl, rfl⟩

/-- C2 as amended: with `numChallenges = 0`, `generateWorld` still builds the separator of
challenge index 0 and nothing more: after the reset it is exactly one
`makeChallengeSeparator` call, the dynamic-entity count grows by 2, the two new walls take
the next two slots of `dynamicEntities`, and both are registered with physics. -/
theorem generateWorld_zero_challenges (k : Consts) (ctx : Engine)
    (h0 : k.numChallenges = 0) :
    generateWorld k ctx = makeChallengeSeparator k (resetPersistentEntities k ctx) 0 ∧
    (generateWorld k ctx).numDynamicEntities = ctx.numDynamicEntities + 2 ∧
    (generateWorld k ctx).dynamicEntities ctx.numDynamicEntities
      = ctx.entityHandles ctx.numEntitiesMade ∧
    (generateWorld k ctx).dynamicEntities (ctx.numDynamicEntities + 1)
      = ctx.entityHandles (ctx.numEntitiesMade + 1) ∧
    (generateWorld k ctx).physRegistered
      = (resetPersistentEntities k ctx).physRegistered ++
        [(ctx.entityHandles ctx.numEntitiesMade, ⟨SimObject.Wall⟩),
         (ctx.entityHandles (ctx.numEntitiesMade + 1), ⟨SimObject.Wall⟩)] := by
  have hg : generateWorld k ctx
      = makeChallengeSeparator k (resetPersistentEntities k ctx) 0 := by
    unfold generateWorld generateChallenges
    rw [forRange_of_le 1 k.numChallenges _ _ (by omega)]
  obtain ⟨hn, _, hm, hh, _⟩ := resetPersistentEntities_sameStore k ctx
  obtain ⟨_, _, s0, s1, sn, _⟩ :=
    makeChallengeSeparator_slots k (resetPersistentEntities k ctx) 0
  have hp := makeChallengeSeparator_physRegistered k (resetPersistentEntities k ctx) 0
  rw [hn, hm, hh] at s0 s1
  rw [hn] at sn
  rw [hm, hh] at hp
  rw [hg]
  exact ⟨rfl, sn, s0, s1, hp⟩

theorem generateWorld_zero_challenges_witness :
    (generateWorld openArenaConsts sampleEngine).numDynamicEntities
      = sampleEngine.numDynamicEntities + 2 :=
  (generateWorld_zero_challenges openArenaConsts sampleEngine rfl).2.1

/-- C3 does not hold: on the freshly built world (count 0, `numChallenges = 1`) a second
`generateWorld` in a row leaves four dynamic entities, not `2*numChallenges = 2`. -/
theorem generateWorld_twice_counterexample :
    (createPersistentEntities sampleConsts sampleEngine).numDynamicEntities = 0 ∧
    (generateWorld sampleConsts (generateWorld sampleConsts
      (createPersistentEntities sampleConsts sampleEngine))).numDynamicEntities = 4 ∧
    (generateWorld sampleConsts (generateWorld sampleConsts
      (createPersistentEntities sampleConsts sampleEngine))).numDynamicEntities
      ≠ 2 * sampleConsts.numChallenges := by
  refine ⟨rfl, rfl, by decide⟩

/-- C3 as amended: `generateWorld` never resets the dynamic-entity count. With
`numChallenges >= 1` and a prior count `n` the count afterwards is `n + 2*numChallenges`,
which is `2*numChallenges` exactly when `n = 0`; two calls in a row leave
`n + 4*numChallenges`. -/
theorem generateWorld_count (k : Consts) (ctx : Engine) (h1 : 1 ≤ k.numChallenges) :
    (generateWorld k ctx).numDynamicEntities
      = ctx.numDynamicEntities + 2 * k.numChallenges ∧
    ((generateWorld k ctx).numDynamicEntities = 2 * k.numChallenges
      ↔ ctx.numDynamicEntities = 0) ∧
    (generateWorld k (generateWorld k ctx)).numDynamicEntities
      = ctx.numDynamicEntities + 4 * k.numChallenges := by
  have hmax : max 1 k.numChallenges = k.numChallenges := by omega
  have e1 := generateWorld_numDynamicEntities k ctx
  have e2 := generateWorld_numDynamicEntities k (generateWorld k ctx)
  rw [hmax] at e1 e2
  refine ⟨e1, ?_, ?_⟩
  · rw [e1]; omega
  · rw [e2, e1]; omega

theorem generateWorld_count_witness :
    (generateWorld sampleConsts sampleEngine).numDynamicEntities
      = sampleEngine.numDynamicEntities + 2 * sampleConsts.numChallenges :=
  (generateWorld_count sampleConsts sampleEngine (by decide)).1

/-! ## Transient agent state -/

theorem resetAgent_cleared_self (k : Consts) (i : Nat) (t : Engine) :
    Cleared k (resetAgent k i t) (t.agents i) := by
  simp [Cleared, resetAgent, registerPhysicsEntity, registerEntity, agentStartPos,
    randInRangeCentered, randBetween, rngRand]

theorem resetAgent_cleared_keep (k : Consts) (i : Nat) (t : Engine) (e : Entity)
    (h : Cleared k t e) : Cleared k (resetAgent k i t) e := by
  by_cases he : e = t.agents i
  · rw [he]; exact resetAgent_cleared_self k i t
  · obtain ⟨h1, h2, h3, h4, h5, h6⟩ := h
    simp [Cleared, resetAgent, registerPhysicsEntity, registerEntity, agentStartPos,
      randInRangeCentered, randBetween, rngRand, Function.update_noteq he,
      h1, h2, h3, h4, h5, h6]

theorem makeChallengeSeparator_cleared_keep (k : Consts) (t : Engine) (idx : Nat)
    (e : Entity) (h : Cleared k t e) : Cleared k (makeChallengeSeparator k t idx) e := by
  obtain ⟨h1, h2, h3, h4, h5, h6⟩ := h
  refine ⟨h1, ?_, ?_, ?_, h5, h6⟩
  · simp only [makeChallengeSeparator, makeChallengeSeparatorLocals, registerPhysicsEntity,
      registerEntity, setupPhysicsEntity, makeDynEntity, makeEntity, randBetween, rngRand,
      Function.update_apply]
    split_ifs <;> first | rfl | exact h2
  · simp only [makeChallengeSeparator, makeChallengeSeparatorLocals, registerPhysicsEntity,
      registerEntity, setupPhysicsEntity, makeDynEntity, makeEntity, randBetween, rngRand,
      Function.update_apply]
    split_ifs <;> first | rfl | exact h3
  · simp only [makeChallengeSeparator, makeChallengeSeparatorLocals, registerPhysicsEntity,
      registerEntity, setupPhysicsEntity, makeDynEntity, makeEntity, randBetween, rngRand,
      Function.update_apply]
    split_ifs <;> first | rfl | exact h4

theorem resetPersistentEntities_cleared (k : Consts) (ctx : Engine) (i : Nat)
    (hi : i < k.numAgents) :
    Cleared k (resetPersistentEntities k ctx) (ctx.agents i) := by
  unfold resetPersistentEntities
  have hag : (forRange 0 3
      (fun i c => registerPhysicsEntity c (c.borders i) SimObject.Wall)
      (registerPhysicsEntity ctx ctx.floorPlane SimObject.Plane)).agents = ctx.agents := by
    apply forRange_keeps (fun t : Engine => t.agents = ctx.agents)
    · rfl
    · intro j t _ _ h
      exact h
  have key := forRange_inv
    (fun m (t : Engine) => t.agents = ctx.agents ∧
      ∀ j, j < m → Cleared k t (ctx.agents j))
    0 k.numAgents (resetAgent k) _ (Nat.zero_le _)
    ⟨hag, fun j hj => absurd hj (Nat.not_lt_zero j)⟩
    (by
      intro m t _ _ ht
      refine ⟨ht.1, ?_⟩
      intro j hj
      rcases Nat.lt_succ_iff_lt_or_eq.mp hj with hlt | heq
      · exact resetAgent_cleared_keep k m t _ (ht.2 j hlt)
      · rw [heq, ← ht.1]
        exact resetAgent_cleared_self k m t)
  exact key.2 i hi

theorem generateChallenges_cleared_keep (k : Consts) (t : Engine) (e : Entity)
    (h : Cleared k t e) : Cleared k (generateChallenges k t) e := by
  unfold generateChallenges
  apply forRange_keeps (fun c : Engine => Cleared k c e)
  · exact makeChallengeSeparator_cleared_keep k t 0 e h
  · intro i c _ _ hc
    exact makeChallengeSeparator_cleared_keep k c i e hc

theorem tdiv_two_range (n : Int) (h : 1 ≤ n) : 0 ≤ Int.tdiv n 2 ∧ Int.tdiv n 2 < n := by
  rw [Int.tdiv_eq_ediv (by omega) (by omega)]
  omega

/-- C5: for every prior world state and every agent `i < numAgents`, after `generateWorld`
the agent has progress 0, zero linear and angular velocity, zero external force and
torque, done flag 0, and action `(x, y, r)` all equal to `numMoveBuckets/2` (integer
division), which lies in `[0, numMoveBuckets)` when `numMoveBuckets >= 1`; a second world
state with the same agent handle ends with the same values, whatever it held before. -/
theorem generateWorld_clears_agents (k : Consts) (ctx : Engine) (i : Nat)
    (hi : i < k.numAgents) :
    (generateWorld k ctx).progress (ctx.agents i) = 0 ∧
    (generateWorld k ctx).velocity (ctx.agents i) = ⟨Vector3.zero, Vector3.zero⟩ ∧
    (generateWorld k ctx).externalForce (ctx.agents i) = Vector3.zero ∧
    (generateWorld k ctx).externalTorque (ctx.agents i) = Vector3.zero ∧
    (generateWorld k ctx).done (ctx.agents i) = 0 ∧
    (generateWorld k ctx).action (ctx.agents i)
      = ⟨Int.tdiv k.numMoveBuckets 2, Int.tdiv k.numMoveBuckets 2,
          Int.tdiv k.numMoveBuckets 2⟩ ∧
    (1 ≤ k.numMoveBuckets →
      0 ≤ Int.tdiv k.numMoveBuckets 2 ∧ Int.tdiv k.numMoveBuckets 2 < k.numMoveBuckets) ∧
    (generateWorld k ctx).agents = ctx.agents ∧
    (∀ ctx2 : Engine, ctx2.agents i = ctx.agents i →
      (generateWorld k ctx2).progress (ctx.agents i)
        = (generateWorld k ctx).progress (ctx.agents i) ∧
      (generateWorld k ctx2).velocity (ctx.agents i)
        = (generateWorld k ctx).velocity (ctx.agents i) ∧
      (generateWorld k ctx2).externalForce (ctx.agents i)
        = (generateWorld k ctx).externalForce (ctx.agents i) ∧
      (generateWorld k ctx2).externalTorque (ctx.agents i)
        = (generateWorld k ctx).externalTorque (ctx.agents i) ∧
      (generateWorld k ctx2).done (ctx.agents i)
        = (generateWorld k ctx).done (ctx.agents i) ∧
      (generateWorld k ctx2).action (ctx.agents i)
        = (generateWorld k ctx).action (ctx.agents i)) := by
  have main : ∀ c : Engine, Cleared k (generateWorld k c) (c.agents i) := fun c =>
    generateChallenges_cleared_keep k _ _ (resetPersistentEntities_cleared k c i hi)
  obtain ⟨h1, h2, h3, h4, h5, h6⟩ := main ctx
  refine ⟨h1, h2, h3, h4, h5, h6, tdiv_two_range k.numMoveBuckets,
    (generateWorld_sameRoster k ctx).1, ?_⟩
  · intro ctx2 he
    obtain ⟨g1, g2, g3, g4, g5, g6⟩ := main ctx2
    rw [he] at g1 g2 g3 g4 g5 g6
    exact ⟨g1.trans h1.symm, g2.trans h2.symm, g3.trans h3.symm, g4.trans h4.symm,
      g5.trans h5.symm, g6.trans h6.symm⟩

theorem generateWorld_clears_agents_witness :
    (generateWorld sampleConsts sampleEngine).action (sampleEngine.agents 1) = ⟨2, 2, 2⟩ :=
  (generateWorld_clears_agents sampleConsts sampleEngine 1 (by decide)).2.2.2.2.2.1

/-! ## Peer references -/

theorem filter_ne_range (N i : Nat) (hi : i < N) :
    (List.range N).filter (fun j => decide (j ≠ i))
      = (List.range (N - 1)).map (skipIdx i) := by
  induction N with
  | zero => omega
  | succ n ih =>
    rw [List.range_succ, List.filter_append]
    rcases Nat.lt_succ_iff_lt_or_eq.mp hi with hlt | heq
    · rw [ih hlt]
      have hn : n + 1 - 1 = (n - 1) + 1 := by omega
      rw [hn, List.range_succ, List.map_append]
      have : skipIdx i (n - 1) = n := by
        unfold skipIdx
        split_ifs <;> omega
      have hne : n ≠ i := by omega
      simp [this, hne]
    · subst heq
      have h1 : (List.range i).filter (fun j => decide (j ≠ i)) = List.range i := by
        apply List.filter_eq_self.mpr
        intro a ha
        have := List.mem_range.mp ha
        simp only [decide_eq_true_eq]; omega
      have h2 : (List.range i).map (skipIdx i) = List.range i := by
        conv_rhs => rw [← List.map_id (List.range i)]
        apply List.map_congr_left
        intro a ha
        have := List.mem_range.mp ha
        simp [skipIdx, this]
      simp only [h1, h2, Nat.add_sub_cancel]
      simp

/-- Lines 162-170: the inner loop for agent `i`, started with `out_idx = 0`. -/
theorem fill_loop (N i : Nat) (t : Engine) (cur : Entity) (hi : i < N) :
    (forRange 0 N (fillOtherAgent i cur) (t, 0)).1.agents = t.agents ∧
    (forRange 0 N (fillOtherAgent i cur) (t, 0)).2 = N - 1 ∧
    (∀ s, s < N - 1 →
      (forRange 0 N (fillOtherAgent i cur) (t, 0)).1.otherAgents cur s
        = t.agents (skipIdx i s)) ∧
    (∀ s, N - 1 ≤ s →
      (forRange 0 N (fillOtherAgent i cur) (t, 0)).1.otherAgents cur s
        = t.otherAgents cur s) ∧
    (∀ e, e ≠ cur →
      (forRange 0 N (fillOtherAgent i cur) (t, 0)).1.otherAgents e = t.otherAgents e) := by
  have key := forRange_inv
    (fun m (r : Engine × Nat) =>
      r.1.agents = t.agents ∧ r.2 = (if i < m then m - 1 else m) ∧
      (∀ s, s < r.2 → r.1.otherAgents cur s = t.agents (skipIdx i s)) ∧
      (∀ s, r.2 ≤ s → r.1.otherAgents cur s = t.otherAgents cur s) ∧
      (∀ e, e ≠ cur → r.1.otherAgents e = t.otherAgents e))
    0 N (fillOtherAgent i cur) (t, 0) (Nat.zero_le _)
    ⟨rfl, by simp, fun s hs => absurd hs (Nat.not_lt_zero s), fun _ _ => rfl,
      fun _ _ => rfl⟩
    (by
      rintro m ⟨c, out⟩ _ _ ⟨ha, ho, hlo, hhi, hoth⟩
      simp only at ha ho hlo hhi hoth
      by_cases him : i = m
      · subst him
        simp only [fillOtherAgent, if_true]
        refine ⟨ha, ?_, hlo, hhi, hoth⟩
        simp at ho ⊢
        exact ho
      · simp only [fillOtherAgent, if_neg him]
        refine ⟨ha, ?_, ?_, ?_, ?_⟩
        · show out + 1 = _
          rw [ho]; split_ifs <;> omega
        · intro s hs
          show Function.update c.otherAgents cur
            (Function.update (c.otherAgents cur) out (c.agents m)) cur s = _
          rw [Function.update_same]
          by_cases hso : s = out
          · rw [hso, Function.update_same, ha]
            congr 1
            rw [ho]; unfold skipIdx
            split_ifs <;> omega
          · rw [Function.update_noteq hso]
            exact hlo s (by omega)
        · intro s hs
          show Function.update c.otherAgents cur
            (Function.update (c.otherAgents cur) out (c.agents m)) cur s = _
          rw [Function.update_same]
          have hso : s ≠ out := by omega
          rw [Function.update_noteq hso]
          exact hhi s (by omega)
        · intro e he
          show Function.update c.otherAgents cur
            (Function.update (c.otherAgents cur) out (c.agents m)) e = _
          rw [Function.update_noteq he]
          exact hoth e he)
  obtain ⟨ha, ho, hlo, hhi, hoth⟩ := key
  have hout : (forRange 0 N (fillOtherAgent i cur) (t, 0)).2 = N - 1 := by
    rw [ho, if_pos hi]
  refine ⟨ha, hout, ?_, ?_, hoth⟩
  · intro s hs
    exact hlo s (by rw [hout]; exact hs)
  · intro s hs
    exact hhi s (by rw [hout]; exact hs)

/-- Lines 148-154: the loop that creates the agents takes the next `N` handles in order
and touches no `OtherAgents` list. -/
theorem createAgents_loop (N : Nat) (t : Engine) :
    (forRange 0 N createAgent t).otherAgents = t.otherAgents ∧
    (forRange 0 N createAgent t).entityHandles = t.entityHandles ∧
    (forRange 0 N createAgent t).numEntitiesMade = t.numEntitiesMade + N ∧
    (∀ i, i < N →
      (forRange 0 N createAgent t).agents i = t.entityHandles (t.numEntitiesMade + i)) := by
  exact forRange_inv
    (fun m (r : Engine) =>
      r.otherAgents = t.otherAgents ∧ r.entityHandles = t.entityHandles ∧
      r.numEntitiesMade = t.numEntitiesMade + m ∧
      (∀ i, i < m → r.agents i = t.entityHandles (t.numEntitiesMade + i)))
    0 N createAgent t (Nat.zero_le _)
    ⟨rfl, rfl, rfl, fun i hi => absurd hi (Nat.not_lt_zero i)⟩
    (by
      intro m r _ _ ⟨h1, h2, h3, h4⟩
      refine ⟨h1, h2, ?_, ?_⟩
      · show r.numEntitiesMade + 1 = _
        rw [h3]; rfl
      · intro i hi
        show Function.update r.agents m (r.entityHandles r.numEntitiesMade) i = _
        rcases Nat.lt_succ_iff_lt_or_eq.mp hi with hlt | heq
        · rw [Function.update_noteq (by omega)]
          exact h4 i hlt
        · rw [heq, Function.update_same, h2, h3])

/-- Lines 158-171: the loop that fills every `OtherAgents` list, when the agent handles
are pairwise different. -/
theorem populate_loop (k : Consts) (t : Engine)
    (hd : ∀ i j, i < k.numAgents → j < k.numAgents → t.agents i = t.agents j → i = j) :
    (forRange 0 k.numAgents (populateOtherAgents k) t).agents = t.agents ∧
    (∀ i, i < k.numAgents →
      (∀ s, s < k.numAgents - 1 →
        (forRange 0 k.numAgents (populateOtherAgents k) t).otherAgents (t.agents i) s
          = t.agents (skipIdx i s)) ∧
      (∀ s, k.numAgents - 1 ≤ s →
        (forRange 0 k.numAgents (populateOtherAgents k) t).otherAgents (t.agents i) s
          = t.otherAgents (t.agents i) s)) := by
  have key := forRange_inv
    (fun m (r : Engine) =>
      r.agents = t.agents ∧
      (∀ i, i < m →
        (∀ s, s < k.numAgents - 1 → r.otherAgents (t.agents i) s = t.agents (skipIdx i s)) ∧
        (∀ s, k.numAgents - 1 ≤ s → r.otherAgents (t.agents i) s
          = t.otherAgents (t.agents i) s)) ∧
      (∀ i, m ≤ i → i < k.numAgents → r.otherAgents (t.agents i) = t.otherAgents (t.agents i)))
    0 k.numAgents (populateOtherAgents k) t (Nat.zero_le _)
    ⟨rfl, fun i hi => absurd hi (Nat.not_lt_zero i), fun _ _ _ => rfl⟩
    (by
      intro m r _ hm ⟨ha, hdone, htodo⟩
      obtain ⟨fa, _, flo, fhi, foth⟩ := fill_loop k.numAgents m r (r.agents m) hm
      have hpop : populateOtherAgents k m r
          = (forRange 0 k.numAgents (fillOtherAgent m (r.agents m)) (r, 0)).1 := rfl
      rw [hpop]
      refine ⟨fa.trans ha, ?_, ?_⟩
      · intro i hi
        rcases Nat.lt_succ_iff_lt_or_eq.mp hi with hlt | heq
        · have hne : t.agents i ≠ r.agents m := by
            rw [ha]
            intro h
            have := hd i m (by omega) hm h
            omega
          rw [foth _ hne]
          exact hdone i hlt
        · subst heq
          rw [← ha]
          refine ⟨fun s hs => flo s hs, ?_⟩
          intro s hs
          rw [fhi s hs, ha, htodo i (Nat.le_refl i) hm]
      · intro i hi hiN
        have hne : t.agents i ≠ r.agents m := by
          rw [ha]
          intro h
          have := hd i m hiN hm h
          omega
        rw [foth _ hne]
        exact htodo i (by omega) hiN)
  exact ⟨key.1, key.2.1⟩

theorem createStaticEntities_store (k : Consts) (ctx : Engine) :
    (createStaticEntities k ctx).otherAgents = ctx.otherAgents ∧
    (createStaticEntities k ctx).entityHandles = ctx.entityHandles ∧
    (createStaticEntities k ctx).numEntitiesMade = ctx.numEntitiesMade + 4 :=
  ⟨rfl, rfl, rfl⟩

/-- C4: when the `numAgents` handles `makeEntity` returned for the agents are pairwise
different, after `createPersistentEntities` the `OtherAgents` list of every agent `i` has
its first `numAgents - 1` slots filled with `agents[0..numAgents-1]` in ascending index
order with index `i` skipped, and no slot beyond them written; every other agent occurs
exactly once and agent `i` does not occur; `generateWorld` changes no `OtherAgents` list
(and not the agent array). -/
theorem createPersistentEntities_otherAgents (k : Consts) (ctx : Engine)
    (hd : ∀ i j, i < k.numAgents → j < k.numAgents →
      (createPersistentEntities k ctx).agents i = (createPersistentEntities k ctx).agents j →
      i = j)
    (i : Nat) (hi : i < k.numAgents) :
    (createPersistentEntities k ctx).agents i
      = ctx.entityHandles (ctx.numEntitiesMade + 4 + i) ∧
    (List.range (k.numAgents - 1)).map
        ((createPersistentEntities k ctx).otherAgents
          ((createPersistentEntities k ctx).agents i))
      = ((List.range k.numAgents).filter (fun j => decide (j ≠ i))).map
          (createPersistentEntities k ctx).agents ∧
    (∀ s, k.numAgents - 1 ≤ s →
      (createPersistentEntities k ctx).otherAgents
          ((createPersistentEntities k ctx).agents i) s
        = ctx.otherAgents ((createPersistentEntities k ctx).agents i) s) ∧
    ((List.range (k.numAgents - 1)).map
        ((createPersistentEntities k ctx).otherAgents
          ((createPersistentEntities k ctx).agents i))).length = k.numAgents - 1 ∧
    ((List.range (k.numAgents - 1)).map
        ((createPersistentEntities k ctx).otherAgents
          ((createPersistentEntities k ctx).agents i))).Nodup ∧
    (createPersistentEntities k ctx).agents i ∉
      (List.range (k.numAgents - 1)).map
        ((createPersistentEntities k ctx).otherAgents
          ((createPersistentEntities k ctx).agents i)) ∧
    (∀ j, j < k.numAgents → j ≠ i →
      ((List.range (k.numAgents - 1)).map
        ((createPersistentEntities k ctx).otherAgents
          ((createPersistentEntities k ctx).agents i))).count
        ((createPersistentEntities k ctx).agents j) = 1) ∧
    (∀ c : Engine, (generateWorld k c).otherAgents = c.otherAgents ∧
      (generateWorld k c).agents = c.agents) := by
  obtain ⟨so, sh, sn⟩ := createStaticEntities_store k ctx
  obtain ⟨co, ch, cn, ca⟩ := createAgents_loop k.numAgents (createStaticEntities k ctx)
  have hfin : createPersistentEntities k ctx
      = forRange 0 k.numAgents (populateOtherAgents k)
          (forRange 0 k.numAgents createAgent (createStaticEntities k ctx)) := rfl
  rw [hfin] at hd ⊢
  generalize hmid : forRange 0 k.numAgents createAgent (createStaticEntities k ctx) = mid
    at hd co ch cn ca ⊢
  have hag0 : (forRange 0 k.numAgents (populateOtherAgents k) mid).agents = mid.agents := by
    apply forRange_keeps (fun r : Engine => r.agents = mid.agents)
    · rfl
    · intro m r _ _ h
      have hpop : populateOtherAgents k m r
          = (forRange 0 k.numAgents (fillOtherAgent m (r.agents m)) (r, 0)).1 := rfl
      rw [hpop]
      apply Eq.trans _ h
      apply forRange_keeps (fun p : Engine × Nat => p.1.agents = r.agents)
      · rfl
      · intro j p _ _ hp
        unfold fillOtherAgent
        split_ifs
        · exact hp
        · exact hp
  rw [hag0] at hd ⊢
  obtain ⟨_, hpop⟩ := populate_loop k mid hd
  obtain ⟨hlo, hhi⟩ := hpop i hi
  set fin := forRange 0 k.numAgents (populateOtherAgents k) mid with hfin2
  have hlist : (List.range (k.numAgents - 1)).map (fin.otherAgents (mid.agents i))
      = ((List.range k.numAgents).filter (fun j => decide (j ≠ i))).map mid.agents := by
    rw [filter_ne_range k.numAgents i hi, List.map_map]
    apply List.map_congr_left
    intro s hs
    exact hlo s (List.mem_range.mp hs)
  have hnodup : (((List.range k.numAgents).filter (fun j => decide (j ≠ i))).map
      mid.agents).Nodup := by
    apply List.Nodup.map_on
    · intro a ha b hb hab
      have ha2 := List.mem_range.mp (List.mem_of_mem_filter ha)
      have hb2 := List.mem_range.mp (List.mem_of_mem_filter hb)
      exact hd a b ha2 hb2 hab
    · exact (List.nodup_range _).filter _
  refine ⟨?_, hlist, ?_, by simp, ?_, ?_, ?_, ?_⟩
  · rw [ca i hi, sh, sn]
  · intro s hs
    rw [hhi s hs, co, so]
  · rw [hlist]; exact hnodup
  · rw [hlist]
    intro hmem
    obtain ⟨j, hj, hje⟩ := List.mem_map.mp hmem
    have hj1 := List.mem_range.mp (List.mem_of_mem_filter hj)
    have hj2 : j ≠ i := by simpa using (List.mem_filter.mp hj).2
    exact hj2 (hd j i hj1 hi hje)
  · intro j hj hji
    rw [hlist]
    apply List.count_eq_one_of_mem hnodup
    apply List.mem_map.mpr
    exact ⟨j, List.mem_filter.mpr ⟨List.mem_range.mpr hj, by simpa using hji⟩, rfl⟩
  · intro c
    exact ⟨(generateWorld_sameRoster k c).2, (generateWorld_sameRoster k c).1⟩

theorem createPersistentEntities_otherAgents_witness :
    (List.range (sampleConsts.numAgents - 1)).map
        ((createPersistentEntities sampleConsts sampleEngine).otherAgents
          ((createPersistentEntities sampleConsts sampleEngine).agents 0))
      = ((List.range sampleConsts.numAgents).filter (fun j => decide (j ≠ 0))).map
          (createPersistentEntities sampleConsts sampleEngine).agents :=
  (createPersistentEntities_otherAgents sampleConsts sampleEngine
    (by
      intro i j hi hj h
      have hi2 : i < 2 := hi
      have hj2 : j < 2 := hj
      interval_cases i <;> interval_cases j <;>
        first | rfl | exact absurd h (by decide))
    0 (by decide)).2.1

/-- Three agents on the sample world: agent 1 (handle 5) refers to agents 0 and 2. -/
theorem createPersistentEntities_three_agents :
    (createPersistentEntities { sampleConsts with numAgents := 3 } sampleEngine).agents 1
      = 5 ∧
    (List.range 2).map
      ((createPersistentEntities { sampleConsts with numAgents := 3 }
        sampleEngine).otherAgents 5) = [4, 6] := by
  refine ⟨rfl, rfl⟩

/-! ## Agent poses after the reset -/

theorem resetAgent_pose (k : Consts) (m : Nat) (t : Engine) :
    (resetAgent k m t).agents = t.agents ∧
    (resetAgent k m t).rngDraws = t.rngDraws ∧
    (resetAgent k m t).rngPos = t.rngPos + 3 ∧
    (resetAgent k m t).position = Function.update t.position (t.agents m)
      (biasStartPos k m (agentStartPos k t).1) ∧
    (resetAgent k m t).rotation = Function.update t.rotation (t.agents m)
      (Quat.angleAxis (randInRangeCentered (atDraw t 2) (k.pi / 4)).1 k.up) :=
  ⟨rfl, rfl, rfl, rfl, rfl⟩

theorem agentStartPos_congr (k : Consts) (a b : Engine)
    (hd : a.rngDraws = b.rngDraws) (hp : a.rngPos = b.rngPos) :
    (agentStartPos k a).1 = (agentStartPos k b).1 := by
  simp [agentStartPos, randInRangeCentered, randBetween, rngRand, hd, hp]

theorem randInRangeCentered_congr (a b : Engine) (range : ℚ)
    (hd : a.rngDraws = b.rngDraws) (hp : a.rngPos = b.rngPos) :
    (randInRangeCentered a range).1 = (randInRangeCentered b range).1 := by
  simp [randInRangeCentered, rngRand, hd, hp]

/-- Lines 193-236: the pose each agent holds after `resetPersistentEntities`, when the
agent handles are pairwise different. Agent `i` uses draws `3i`, `3i+1`, `3i+2` counted
from the stream position at entry. -/
theorem resetPersistentEntities_pose (k : Consts) (ctx : Engine)
    (hd : ∀ i j, i < k.numAgents → j < k.numAgents → ctx.agents i = ctx.agents j → i = j)
    (i : Nat) (hi : i < k.numAgents) :
    (resetPersistentEntities k ctx).position (ctx.agents i)
      = biasStartPos k i (agentStartPos k (atDraw ctx (3 * i))).1 ∧
    (resetPersistentEntities k ctx).rotation (ctx.agents i)
      = Quat.angleAxis (randInRangeCentered (atDraw ctx (3 * i + 2)) (k.pi / 4)).1 k.up := by
  unfold resetPersistentEntities
  have hpre : (forRange 0 3 (fun i c => registerPhysicsEntity c (c.borders i) SimObject.Wall)
        (registerPhysicsEntity ctx ctx.floorPlane SimObject.Plane)).agents = ctx.agents ∧
      (forRange 0 3 (fun i c => registerPhysicsEntity c (c.borders i) SimObject.Wall)
        (registerPhysicsEntity ctx ctx.floorPlane SimObject.Plane)).rngDraws
        = ctx.rngDraws ∧
      (forRange 0 3 (fun i c => registerPhysicsEntity c (c.borders i) SimObject.Wall)
        (registerPhysicsEntity ctx ctx.floorPlane SimObject.Plane)).rngPos
        = ctx.rngPos := by
    apply forRange_keeps (fun t : Engine => t.agents = ctx.agents ∧
      t.rngDraws = ctx.rngDraws ∧ t.rngPos = ctx.rngPos)
    · exact ⟨rfl, rfl, rfl⟩
    · intro j t _ _ h
      exact h
  have key := forRange_inv
    (fun m (t : Engine) =>
      t.agents = ctx.agents ∧ t.rngDraws = ctx.rngDraws ∧ t.rngPos = ctx.rngPos + 3 * m ∧
      ∀ j, j < m →
        t.position (ctx.agents j)
          = biasStartPos k j (agentStartPos k (atDraw ctx (3 * j))).1 ∧
        t.rotation (ctx.agents j)
          = Quat.angleAxis
              (randInRangeCentered (atDraw ctx (3 * j + 2)) (k.pi / 4)).1 k.up)
    0 k.numAgents (resetAgent k) _ (Nat.zero_le _)
    ⟨hpre.1, hpre.2.1, hpre.2.2, fun j hj => absurd hj (Nat.not_lt_zero j)⟩
    (by
      intro m t _ hm ⟨ha, hdr, hp, hdone⟩
      obtain ⟨ra, rd, rp, rpos, rrot⟩ := resetAgent_pose k m t
      refine ⟨ra.trans ha, rd.trans hdr, ?_, ?_⟩
      · rw [rp, hp]; ring
      · intro j hj
        rw [rpos, rrot, ha]
        rcases Nat.lt_succ_iff_lt_or_eq.mp hj with hlt | heq
        · have hne : ctx.agents j ≠ ctx.agents m := by
            intro h
            have := hd j m (by omega) hm h
            omega
          rw [Function.update_noteq hne, Function.update_noteq hne]
          exact hdone j hlt
        · subst heq
          rw [Function.update_same, Function.update_same]
          refine ⟨?_, ?_⟩
          · rw [agentStartPos_congr k t (atDraw ctx (3 * j)) hdr hp]
          · rw [randInRangeCentered_congr (atDraw t 2) (atDraw ctx (3 * j + 2)) (k.pi / 4)
              hdr (by show t.rngPos + 2 = ctx.rngPos + (3 * j + 2); rw [hp]; ring)])
  exact key.2.2.2 i hi

theorem agentStartPos_atDraw_x (k : Consts) (ctx : Engine) (n : Nat) :
    (agentStartPos k (atDraw ctx n)).1.x
      = ctx.rngDraws (ctx.rngPos + n) * (k.worldWidth / 2 - 2.5 * k.agentRadius)
        - (k.worldWidth / 2 - 2.5 * k.agentRadius) / 2 := rfl

theorem sample_agents_distinct (i j : Nat) (hi : i < sampleConsts.numAgents)
    (hj : j < sampleConsts.numAgents)
    (h : (createPersistentEntities sampleConsts sampleEngine).agents i
      = (createPersistentEntities sampleConsts sampleEngine).agents j) : i = j := by
  have hi2 : i < 2 := hi
  have hj2 : j < 2 := hj
  interval_cases i <;> interval_cases j <;> first | rfl | exact absurd h (by decide)

/-- C10: for every agent `i < numAgents`, when every draw lies in `[0,1)` (and `math::pi` is
positive), the rotation `resetPersistentEntities` stores for the agent is
`Quat::angleAxis(angle, up)` with `|angle| <= pi/4`; in fact `|angle| <= pi/8`. -/
theorem resetPersistentEntities_yaw (k : Consts) (ctx : Engine)
    (i : Nat) (hi : i < k.numAgents) (hpi : 0 < k.pi)
    (hu : ∀ n, 0 ≤ ctx.rngDraws n ∧ ctx.rngDraws n < 1) :
    ∃ angle : ℚ,
      (resetPersistentEntities k ctx).rotation (ctx.agents i) = Quat.angleAxis angle k.up ∧
      |angle| ≤ k.pi / 4 ∧ |angle| ≤ k.pi / 8 := by
  unfold resetPersistentEntities
  have hpre : (forRange 0 3 (fun i c => registerPhysicsEntity c (c.borders i) SimObject.Wall)
        (registerPhysicsEntity ctx ctx.floorPlane SimObject.Plane)).agents = ctx.agents ∧
      (forRange 0 3 (fun i c => registerPhysicsEntity c (c.borders i) SimObject.Wall)
        (registerPhysicsEntity ctx ctx.floorPlane SimObject.Plane)).rngDraws
        = ctx.rngDraws := by
    apply forRange_keeps (fun t : Engine => t.agents = ctx.agents ∧
      t.rngDraws = ctx.rngDraws)
    · exact ⟨rfl, rfl⟩
    · intro j t _ _ h
      exact h
  have key := forRange_inv
    (fun m (t : Engine) =>
      t.agents = ctx.agents ∧ t.rngDraws = ctx.rngDraws ∧
      ∀ j, j < m → ∃ angle : ℚ,
        t.rotation (ctx.agents j) = Quat.angleAxis angle k.up ∧
        |angle| ≤ k.pi / 4 ∧ |angle| ≤ k.pi / 8)
    0 k.numAgents (resetAgent k) _ (Nat.zero_le _)
    ⟨hpre.1, hpre.2, fun j hj => absurd hj (Nat.not_lt_zero j)⟩
    (by
      intro m t _ _ ⟨ha, hdr, hdone⟩
      obtain ⟨ra, rd, _, _, rrot⟩ := resetAgent_pose k m t
      refine ⟨ra.trans ha, rd.trans hdr, ?_⟩
      intro j hj
      rw [rrot]
      by_cases hsame : ctx.agents j = t.agents m
      · rw [hsame, Function.update_same]
        have hv : (randInRangeCentered (atDraw t 2) (k.pi / 4)).1
            = ctx.rngDraws (t.rngPos + 2) * (k.pi / 4) - k.pi / 4 / 2 := by
          rw [← hdr]; rfl
        have h8 := centered_abs_le _ (k.pi / 4) (hu (t.rngPos + 2)).1
          (hu (t.rngPos + 2)).2 (by linarith)
        rw [← hv] at h8
        exact ⟨_, rfl, by linarith, by linarith⟩
      · rw [Function.update_noteq hsame]
        rcases Nat.lt_succ_iff_lt_or_eq.mp hj with hlt | heq
        · exact hdone j hlt
        · exact absurd (by rw [heq, ha]) hsame)
  exact key.2.2 i hi

theorem resetPersistentEntities_yaw_witness :
    ∃ angle : ℚ,
      (resetPersistentEntities sampleConsts
          (createPersistentEntities sampleConsts sampleEngine)).rotation
          ((createPersistentEntities sampleConsts sampleEngine).agents 1)
        = Quat.angleAxis angle sampleConsts.up ∧
      |angle| ≤ sampleConsts.pi / 4 ∧ |angle| ≤ sampleConsts.pi / 8 :=
  resetPersistentEntities_yaw sampleConsts
    (createPersistentEntities sampleConsts sampleEngine) 1
    (by decide) (by norm_num [sampleConsts])
    (fun _ => ⟨by show (0 : ℚ) ≤ 1 / 2; norm_num, by show (1 / 2 : ℚ) < 1; norm_num⟩)

/-! ## The row of separators -/

/-- On the sample world (width 20, every draw `1/2`) agent 0 starts at `x = 5`, agent 1 at
`x = -5`, and the single separator has its door centred at 10 with a wall of length
`20/3` on either side. -/
theorem sample_scenario :
    ((resetPersistentEntities sampleConsts
        (createPersistentEntities sampleConsts sampleEngine)).position
        ((createPersistentEntities sampleConsts sampleEngine).agents 0)).x = 5 ∧
    ((resetPersistentEntities sampleConsts
        (createPersistentEntities sampleConsts sampleEngine)).position
        ((createPersistentEntities sampleConsts sampleEngine).agents 1)).x = -5 ∧
    (makeChallengeSeparatorLocals sampleConsts sampleEngine 0).1.door_center = 10 ∧
    (makeChallengeSeparatorLocals sampleConsts sampleEngine 0).1.left_len = 20 / 3 ∧
    (makeChallengeSeparatorLocals sampleConsts sampleEngine 0).1.right_len = 20 / 3 := by
  have hdc : (makeChallengeSeparatorLocals sampleConsts sampleEngine 0).1.door_center
      = 10 := by
    rw [separatorLocals_door_center]
    norm_num [sampleConsts, sampleEngine, Consts.doorWidth]
  have p0 := (resetPersistentEntities_pose sampleConsts
    (createPersistentEntities sampleConsts sampleEngine) sample_agents_distinct 0
    (by decide)).1
  have p1 := (resetPersistentEntities_pose sampleConsts
    (createPersistentEntities sampleConsts sampleEngine) sample_agents_distinct 1
    (by decide)).1
  have d : ∀ n, (createPersistentEntities sampleConsts sampleEngine).rngDraws n = 1 / 2 :=
    fun _ => rfl
  refine ⟨?_, ?_, hdc, ?_, ?_⟩
  · rw [p0]
    simp only [biasStartPos, Nat.zero_mod, if_true, agentStartPos_atDraw_x, d]
    norm_num [sampleConsts]
  · rw [p1]
    simp only [biasStartPos, Nat.one_mod, one_ne_zero, if_false, agentStartPos_atDraw_x, d]
    norm_num [sampleConsts]
  · rw [separatorLocals_left_len, hdc]
    norm_num [sampleConsts, Consts.doorWidth]
  · rw [separatorLocals_right_len, hdc]
    norm_num [sampleConsts, Consts.doorWidth]

end GPUHideSeek
